import Mathlib

/-!
Shallow embedding of the request execution engine of the dexpaprika Go SDK
(package dexpaprika, file client.go): the client configuration and functional
options (NewClient, WithBaseURL, SetBaseURL), the request builder (NewRequest),
the error classifier (createAPIError, IsRetryable) and the retry loop
(Client.Do).  External library behaviour (net/url parsing, encoding/json)
is abstracted into oracle functions; everything the repository itself computes
is translated directly from the Go source.
-/

namespace DexPaprika

/-- Raw response bytes (a Go byte slice). -/
abbrev Body := List Nat

/-- An arbitrary Go value handed to the JSON encoder as a request body. -/
abbrev JsonVal := Nat

/-- A parsed URL value (net/url.URL), kept abstract. -/
structure URLv where
  raw : String
  deriving DecidableEq, Repr

/-- Oracles for the external library calls made by client.go.
parseURL models net/url.Parse (none = parse error); resolve models
URL.ResolveReference; encode models encoding/json Encode (none = serialization
failure); methodValid models the method check inside http.NewRequest;
errorField models json.Unmarshal of a body into struct with a single
string field named error: some s means unmarshal succeeded and the field
holds s, none means unmarshal returned an error. -/
structure Oracles where
  parseURL : String → Option URLv
  resolve : URLv → URLv → URLv
  encode : JsonVal → Option Body
  methodValid : String → Bool
  errorField : Body → Option String

/-- DefaultBaseURL constant from client.go. -/
def DefaultBaseURL : String := "https://api.dexpaprika.com"

/-- DefaultMaxRetries constant from client.go. -/
def DefaultMaxRetries : Int := 3

/-- DefaultRetryWaitMin (1 second) in nanoseconds, as a Go time.Duration. -/
def DefaultRetryWaitMin : Int := 1000000000

/-- DefaultRetryWaitMax (5 seconds) in nanoseconds, as a Go time.Duration. -/
def DefaultRetryWaitMax : Int := 5000000000

/-- The configuration-carrying fields of the Go Client struct.  baseURL is an
Option because the Go field is a possibly-nil pointer; rateLimiter models
whether the time.Ticker field is non-nil.  maxRetries is Int because the Go
field has the signed type int; the wait durations are time.Duration = int64
nanoseconds. -/
structure Client where
  baseURL : Option URLv
  userAgent : String
  maxRetries : Int
  retryWaitMin : Int
  retryWaitMax : Int
  rateLimiter : Bool

/-- ClientOption from client.go: a function that mutates the client under
construction. -/
def ClientOption := Client → Client

/-- WithBaseURL from client.go: parses the string and installs the result only
when parsing succeeded; a parse error is silently dropped and the client is
left unchanged. -/
def WithBaseURL (o : Oracles) (baseURL : String) : ClientOption := fun c =>
  match o.parseURL baseURL with
  | some u => { c with baseURL := some u }
  | none => c

/-- WithUserAgent from client.go. -/
def WithUserAgent (userAgent : String) : ClientOption := fun c =>
  { c with userAgent := userAgent }

/-- WithRetryConfig from client.go. -/
def WithRetryConfig (maxRetries retryWaitMin retryWaitMax : Int) : ClientOption := fun c =>
  { c with maxRetries := maxRetries, retryWaitMin := retryWaitMin,
           retryWaitMax := retryWaitMax }

/-- NewClient from client.go: builds the default client (the default base URL
is parsed with the error ignored, leaving a nil pointer on failure) and then
applies the options in order. -/
def NewClient (o : Oracles) (options : List ClientOption) : Client :=
  let c : Client :=
    { baseURL := o.parseURL DefaultBaseURL
      userAgent := "DexPaprika-SDK-Go"
      maxRetries := DefaultMaxRetries
      retryWaitMin := DefaultRetryWaitMin
      retryWaitMax := DefaultRetryWaitMax
      rateLimiter := false }
  options.foldl (fun c option => option c) c

/-- The error value returned by a failed url.Parse or json Encode inside the
client, carried to the caller unchanged. -/
inductive ReqError where
  | urlParseError (path : String)
  | jsonEncodeError
  | httpNewRequestError
  deriving DecidableEq, Repr

/-- Client.SetBaseURL from client.go: on a parse error the error is returned
and the stored base URL is left untouched; on success the base URL is
replaced and no error is returned. -/
def Client.SetBaseURL (o : Oracles) (c : Client) (urlStr : String) :
    Client × Option ReqError :=
  match o.parseURL urlStr with
  | none => (c, some (ReqError.urlParseError urlStr))
  | some u => ({ c with baseURL := some u }, none)

/-- The outbound request built by Client.NewRequest: method, resolved URL,
optional serialized body bytes, and the three headers the builder sets. -/
structure OutRequest where
  method : String
  url : URLv
  body : Option Body
  contentType : Option String
  accept : String
  userAgent : String
  deriving DecidableEq, Repr

/-- The sentinel errors of client.go together with the wrapped error values
built with fmt.Errorf inside Do and createAPIError.  networkError and
readBodyError carry the retry count interpolated into the message and wrap
the underlying cause (an abstract identifier). -/
inductive GoBaseErr where
  | badRequest
  | unauthorized
  | forbidden
  | notFound
  | rateLimit
  | internalServerError
  | serviceUnavailable
  | timeout
  | retryableError
  | unexpectedStatus (status : Int)
  | networkError (retries : Int) (cause : Nat)
  | readBodyError (retries : Int) (cause : Nat)
  | decodeError
  deriving DecidableEq, Repr

/-- APIError from client.go. -/
structure APIError where
  statusCode : Int
  message : String
  rawResponse : Option Body
  err : GoBaseErr
  deriving DecidableEq, Repr

/-- The errors.Is checks of IsRetryable against the sentinel errors
ErrRetryableError, ErrTimeout and ErrServiceUnavailable, applied to the
wrapped error of an APIError (the result of Unwrap). -/
def GoBaseErr.isRetryableSentinel : GoBaseErr → Bool
  | .retryableError => true
  | .timeout => true
  | .serviceUnavailable => true
  | _ => false

/-- IsRetryable from client.go, specialized to an APIError argument (the only
error value Do ever passes to it): errors.As succeeds, so the status-code
tests run, and errors.Is unwraps to the sentinel comparison. -/
def APIError.isRetryable (e : APIError) : Bool :=
  (decide (500 ≤ e.statusCode) && decide (e.statusCode < 600))
    || decide (e.statusCode = 429)
    || e.err.isRetryableSentinel

/-- createAPIError from client.go: extracts a message from the error field
of the JSON body when unmarshalling succeeds and the field is nonempty, and
maps the status code to a sentinel error, with any other status of at least
500 mapped to ErrRetryableError and everything else to an unexpected-status
error. -/
def createAPIError (o : Oracles) (statusCode : Int) (body : Body) : APIError :=
  let errMsg : String :=
    match o.errorField body with
    | some s => if s ≠ "" then s else ""
    | none => ""
  let e : GoBaseErr :=
    if statusCode = 400 then .badRequest
    else if statusCode = 401 then .unauthorized
    else if statusCode = 403 then .forbidden
    else if statusCode = 404 then .notFound
    else if statusCode = 429 then .rateLimit
    else if statusCode = 500 then .internalServerError
    else if statusCode = 503 then .serviceUnavailable
    else if 500 ≤ statusCode then .retryableError
    else .unexpectedStatus statusCode
  { statusCode := statusCode, message := errMsg, rawResponse := some body, err := e }

/-- The outcome of one transport dispatch (c.client.Do followed by
io.ReadAll of the body): either the dispatch itself errored with no response,
or a response arrived but reading the body failed after sofar bytes,
or a response with its status and fully read body. -/
inductive AttemptOutcome where
  | transportError (cause : Nat)
  | readError (status : Int) (cause : Nat) (sofar : Body)
  | response (status : Int) (body : Body)
  deriving DecidableEq, Repr

/-- The per-call environment of Client.Do: what the transport returns on the
i-th dispatch, whether the ctx.Done channel wins the backoff select before
attempt i, whether ctx.Done is already closed at the non-blocking check right
after dispatch i, whether json Decode of a given success body into the
destination fails, and whether ctx.Done wins the rate-limiter select. -/
structure DoEnv where
  transport : Nat → AttemptOutcome
  backoffCancelled : Nat → Bool
  postCancelled : Nat → Bool
  decodeFails : Body → Bool
  rateCancelled : Bool

/-- The error channel of Client.Do: either ctx.Err from a cancelled context
or a structured APIError. -/
inductive DoErr where
  | ctxCancelled
  | api (e : APIError)
  deriving DecidableEq, Repr

/-- The response handle Client.Do returns (status code; body bytes as read). -/
structure HTTPResp where
  status : Int
  body : Body
  deriving DecidableEq, Repr

/-- The pair (resp, err) returned by Client.Do; either component may be nil. -/
abbrev DoResult := Option HTTPResp × Option DoErr

/-- Wrap an integer into the int64 range, as Go two complement arithmetic
does on overflow. -/
def int64Wrap (x : Int) : Int := (x + 2 ^ 63) % 2 ^ 64 - 2 ^ 63

/-- The Go expression 1 shifted left by n over a 64-bit int: a shift count of
64 or more yields 0, a shift by 63 wraps to the minimum int64. -/
def goShl1 (n : Nat) : Int := if n < 64 then int64Wrap (2 ^ n) else 0

/-- The backoff computed at the top of iteration i of the retry loop in
Client.Do (for i at least 1): retryWaitMin times 1 shifted left by i-1 in
int64 arithmetic, capped at retryWaitMax. -/
def backoffDuration (c : Client) (i : Nat) : Int :=
  let backoff := int64Wrap (c.retryWaitMin * goShl1 (i - 1))
  if backoff > c.retryWaitMax then c.retryWaitMax else backoff

/-- The retry loop of Client.Do, iteration index i, with fuel the number of
loop iterations still permitted by the loop condition (maxRetries - i + 1 at
entry) and attempts the count of dispatches performed so far.  Each iteration:
sleep the backoff when i is positive (returning ctx.Err if the context wins
the select, the slept duration being backoffDuration), clone the request and
dispatch it, return ctx.Err if the context is observed done after dispatch,
retry or fail on a transport error, retry or fail on a body read error,
classify a non-2xx status and retry exactly when the classified error is
retryable and i is below maxRetries, and on a 2xx status decode into the
destination when one was supplied, a decode failure returning an APIError at
once.  The fuel-exhausted case corresponds to the Go loop condition failing
with the resp variable still nil, which happens only when maxRetries is
negative. -/
def doLoop (o : Oracles) (c : Client) (env : DoEnv) (hasDest : Bool) :
    Nat → Nat → Nat → DoResult × Nat
  | _, 0, attempts => ((none, none), attempts)
  | i, fuel + 1, attempts =>
    if 1 ≤ i ∧ env.backoffCancelled i = true then
      ((none, some DoErr.ctxCancelled), attempts)
    else
      let attempts1 := attempts + 1
      if env.postCancelled i = true then
        ((none, some DoErr.ctxCancelled), attempts1)
      else
        match env.transport i with
        | .transportError cause =>
          if (i : Int) = c.maxRetries then
            ((none, some (DoErr.api
              { statusCode := 0, message := "", rawResponse := none,
                err := .networkError c.maxRetries cause })), attempts1)
          else doLoop o c env hasDest (i + 1) fuel attempts1
        | .readError status cause sofar =>
          if (i : Int) = c.maxRetries then
            ((none, some (DoErr.api
              { statusCode := status, message := "", rawResponse := some sofar,
                err := .readBodyError c.maxRetries cause })), attempts1)
          else doLoop o c env hasDest (i + 1) fuel attempts1
        | .response status body =>
          if status < 200 ∨ 300 ≤ status then
            let apiErr := createAPIError o status body
            if apiErr.isRetryable = true ∧ (i : Int) < c.maxRetries then
              doLoop o c env hasDest (i + 1) fuel attempts1
            else ((some ⟨status, body⟩, some (DoErr.api apiErr)), attempts1)
          else if hasDest = true ∧ env.decodeFails body = true then
            ((some ⟨status, body⟩, some (DoErr.api
              { statusCode := status, message := "", rawResponse := some body,
                err := .decodeError })), attempts1)
          else ((some ⟨status, body⟩, none), attempts1)

/-- Client.Do from client.go, instrumented with the number of dispatch
attempts performed.  First the rate-limiter select (when a ticker is
configured, a context cancellation observed while waiting returns ctx.Err
with no dispatch), then the retry loop starting at i = 0 with the loop bound
maxRetries. -/
def Client.Do (o : Oracles) (c : Client) (env : DoEnv) (hasDest : Bool) :
    DoResult × Nat :=
  if c.rateLimiter = true ∧ env.rateCancelled = true then
    ((none, some DoErr.ctxCancelled), 0)
  else
    doLoop o c env hasDest 0 (c.maxRetries + 1).toNat 0

/-- Client.NewRequest from client.go: parse the path (returning the parse
error directly on failure), resolve it against the base URL, serialize the
body when present (returning the encoder error directly on failure), build
the request through http.NewRequest (whose own error is also returned
directly), and set Content-Type only when a body is present, plus Accept and
User-Agent.  The function performs no network I/O.  baseURL is taken from
the client; a nil base URL would fault in Go, so the model requires the
caller to pass the resolved base. -/
def Client.NewRequest (o : Oracles) (c : Client) (base : URLv)
    (method path : String) (body : Option JsonVal) :
    Except ReqError OutRequest :=
  match o.parseURL path with
  | none => Except.error (ReqError.urlParseError path)
  | some rel =>
    let u := o.resolve base rel
    match body with
    | some v =>
      match o.encode v with
      | none => Except.error ReqError.jsonEncodeError
      | some buf =>
        if o.methodValid method = true then
          Except.ok { method := method, url := u, body := some buf,
                      contentType := some "application/json",
                      accept := "application/json", userAgent := c.userAgent }
        else Except.error ReqError.httpNewRequestError
    | none =>
      if o.methodValid method = true then
        Except.ok { method := method, url := u, body := none,
                    contentType := none,
                    accept := "application/json", userAgent := c.userAgent }
      else Except.error ReqError.httpNewRequestError

/-- The two error channels visible to a caller of the SDK: a plain Go error
value (as returned by NewRequest and by a cancelled context) or a structured
APIError.  isAPIError decides whether errors.As with an APIError target
would succeed on the value. -/
inductive GoErr where
  | plain (e : ReqError)
  | api (e : APIError)
  deriving DecidableEq, Repr

/-- Whether a Go error value is (or wraps) an APIError. -/
def GoErr.isAPIError : GoErr → Bool
  | .plain _ => false
  | .api _ => true

/-- The error channel of NewRequest seen through the common Go error
interface: the url.Parse or json Encode error is returned as a plain error,
never wrapped in an APIError. -/
def Client.NewRequestErr (o : Oracles) (c : Client) (base : URLv)
    (method path : String) (body : Option JsonVal) : Option GoErr :=
  match Client.NewRequest o c base method path body with
  | Except.error e => some (GoErr.plain e)
  | Except.ok _ => none

/-- A built http.Request as relevant to retrying with a body: the method and
the identity of the underlying body reader, when a body is attached.  The
reader identity is what Request.Clone copies. -/
structure OutboundReq where
  method : String
  bodyStream : Option Nat
  deriving DecidableEq, Repr

/-- net/http Request.Clone semantics: headers, URL and trailer are deep
copied, but the Body field is copied by reference, so the clone shares the
same underlying reader with the original. -/
def OutboundReq.clone (r : OutboundReq) : OutboundReq :=
  { method := r.method, bodyStream := r.bodyStream }

/-- The dispatch sequence of the retry loop in Client.Do, restricted to body
handling: each of the n attempts clones the request template and sends the
clone, and sending consumes the body reader of the dispatched request.  The
result records, for each attempt in order, whether the dispatched request
carried a still-unconsumed body stream (true when no body is attached). -/
def dispatchFreshness (req : OutboundReq) (n : Nat) : List Bool :=
  ((List.range n).foldl (fun (acc : List Bool × List Nat) _ =>
    let reqClone := req.clone
    let fresh : Bool :=
      match reqClone.bodyStream with
      | none => true
      | some s => decide (s ∉ acc.2)
    (acc.1 ++ [fresh], acc.2 ++ reqClone.bodyStream.toList)) ([], [])).1

/-- Modelled from the spec, for comparison with createAPIError: the status
to kind table of the Error Classifier as the specification states it
(400 BadRequest, 401 Unauthorized, 403 Forbidden, 404 NotFound,
429 RateLimited, 500 InternalServerError, 503 ServiceUnavailable, any other
status of at least 500 RetryableServer, anything else Unexpected(status)). -/
def specStatusKind (status : Int) : GoBaseErr :=
  if status = 400 then .badRequest
  else if status = 401 then .unauthorized
  else if status = 403 then .forbidden
  else if status = 404 then .notFound
  else if status = 429 then .rateLimit
  else if status = 500 then .internalServerError
  else if status = 503 then .serviceUnavailable
  else if 500 ≤ status then .retryableError
  else .unexpectedStatus status

/-- Modelled from the spec, for comparison with createAPIError: the message
extraction rule as the specification states it (the error field of the body
when it parses as JSON with a nonempty error field, empty otherwise, no
failure propagating). -/
def specMessage (o : Oracles) (body : Body) : String :=
  match o.errorField body with
  | some s => if s = "" then "" else s
  | none => ""

/-! Concrete fixtures used by the executable witnesses. -/

/-- A concrete oracle instance: parsing fails exactly on the string
"://bad", JSON encoding fails exactly on the value 0, and the body [1]
unmarshals with error field "Resource not found". -/
def oFix : Oracles :=
  { parseURL := fun s => if s = "://bad" then none else some ⟨s⟩
    resolve := fun b r => ⟨b.raw ++ r.raw⟩
    encode := fun v => if v = 0 then none else some [v]
    methodValid := fun _ => true
    errorField := fun b => if b = [1] then some "Resource not found" else none }

/-- A concrete client: maxRetries 2, waits 1s and 5s, no rate limiter. -/
def cFix : Client :=
  { baseURL := some ⟨DefaultBaseURL⟩, userAgent := "DexPaprika-SDK-Go",
    maxRetries := 2, retryWaitMin := 1000000000, retryWaitMax := 5000000000,
    rateLimiter := false }

/-- Environment where every dispatch fails at the transport level and the
context never fires. -/
def envFailFix : DoEnv :=
  { transport := fun _ => .transportError 7
    backoffCancelled := fun _ => false
    postCancelled := fun _ => false
    decodeFails := fun _ => false
    rateCancelled := false }

/-- Environment where every dispatch returns a 503 with empty body. -/
def env503Fix : DoEnv := { envFailFix with transport := fun _ => .response 503 [] }

/-- Environment where every dispatch returns a 400 whose body is [1]. -/
def env400Fix : DoEnv := { envFailFix with transport := fun _ => .response 400 [1] }

/-- Environment where every dispatch returns 200 with body [2], which fails
to decode into the destination. -/
def envDecodeFix : DoEnv :=
  { envFailFix with transport := fun _ => .response 200 [2]
                    decodeFails := fun b => decide (b = [2]) }

/-- Environment where the context is cancelled during the rate-limiter wait
and during every backoff. -/
def envCancelFix : DoEnv :=
  { envFailFix with rateCancelled := true, backoffCancelled := fun _ => true }

/-! Theorems settling the claims. -/

/-- Helper: wrapping into int64 is the identity on the int64 range. -/
theorem int64Wrap_id (x : Int) (h0 : -(2 ^ 63) ≤ x) (h1 : x < 2 ^ 63) :
    int64Wrap x = x := by
  unfold int64Wrap
  have : (x + 2 ^ 63) % 2 ^ 64 = x + 2 ^ 63 := Int.emod_eq_of_lt (by omega) (by omega)
  omega

/-- Claim C3 (amended): for every attempt number k at least 1 and every
configuration with nonnegative waits whose product retryWaitMin * 2^(k-1)
does not overflow int64, the backoff slept before attempt k equals
min(retryWaitMin * 2^(k-1), retryWaitMax); the as-stated claim fails once
the shift or product overflows 64-bit arithmetic. -/
theorem backoff_formula (c : Client) (k : Nat) (hk : 1 ≤ k)
    (hmin : 0 ≤ c.retryWaitMin) (hmax : 0 ≤ c.retryWaitMax)
    (hov : c.retryWaitMin * 2 ^ (k - 1) < 2 ^ 63) :
    backoffDuration c k = min (c.retryWaitMin * 2 ^ (k - 1)) c.retryWaitMax := by
  unfold backoffDuration
  have hpnn : (0 : Int) ≤ 2 ^ (k - 1) := pow_nonneg (by norm_num) (k - 1)
  rcases eq_or_lt_of_le hmin with h0 | hpos
  · have hsh : int64Wrap (c.retryWaitMin * goShl1 (k - 1)) = 0 := by
      rw [← h0, zero_mul]
      exact int64Wrap_id 0 (by norm_num) (by norm_num)
    rw [hsh, ← h0, zero_mul, if_neg (by omega), min_eq_left hmax]
  · have hp2 : (2 : Int) ^ (k - 1) ≤ c.retryWaitMin * 2 ^ (k - 1) :=
      le_mul_of_one_le_left hpnn hpos
    have hlt : (2 : Int) ^ (k - 1) < 2 ^ 63 := lt_of_le_of_lt hp2 hov
    have hk63 : k - 1 < 63 := by
      by_contra hcon
      push_neg at hcon
      have : (2 : Int) ^ 63 ≤ 2 ^ (k - 1) := pow_le_pow_right₀ (by norm_num) hcon
      omega
    have hsh : goShl1 (k - 1) = 2 ^ (k - 1) := by
      unfold goShl1
      rw [if_pos (by omega : k - 1 < 64)]
      exact int64Wrap_id _ (le_trans (by norm_num) hpnn) hlt
    have hprodnn : (0 : Int) ≤ c.retryWaitMin * 2 ^ (k - 1) :=
      mul_nonneg hmin hpnn
    have hw : int64Wrap (c.retryWaitMin * goShl1 (k - 1))
        = c.retryWaitMin * 2 ^ (k - 1) := by
      rw [hsh]
      exact int64Wrap_id _ (le_trans (by norm_num) hprodnn) hov
    rw [hw]
    rcases le_or_lt (c.retryWaitMin * 2 ^ (k - 1)) c.retryWaitMax with hle | hgt
    · rw [if_neg (not_lt.mpr hle), min_eq_left hle]
    · rw [if_pos hgt, min_eq_right hgt.le]

/-- Claim C3 counterexample: with retryWaitMin = 1ns, retryWaitMax = 5s, the
backoff computed before attempt 65 is 0, not min(retryWaitMin * 2^64,
retryWaitMax) = 5s, because the Go shift 1 shifted left by 64 over int64
yields 0. -/
theorem backoff_overflow_cex :
    backoffDuration
        { baseURL := none, userAgent := "", maxRetries := 100,
          retryWaitMin := 1, retryWaitMax := 5000000000, rateLimiter := false } 65
      ≠ min ((1 : Int) * 2 ^ (65 - 1)) 5000000000 := by decide

/-- Claim C3 witness: the 1s/5s configuration at attempt 4 gives backoff
min(1s * 2^3, 5s) = 5s. -/
theorem backoff_formula_witness :
    backoffDuration cFix 4 = min ((1000000000 : Int) * 2 ^ (4 - 1)) 5000000000 :=
  backoff_formula cFix 4 (by decide) (by decide) (by decide) (by decide)

/-- Claim C4: for every status code and body, the classifier returns an
APIError whose status code is the argument, whose raw response is the body,
whose kind follows the specification table (400 BadRequest, 401 Unauthorized,
403 Forbidden, 404 NotFound, 429 RateLimited, 500 InternalServerError,
503 ServiceUnavailable, other at least 500 RetryableServer, else
Unexpected(status)), and whose message is the error field of the body when it
unmarshals with a nonempty field and empty otherwise, extraction failure
never propagating. -/
theorem createAPIError_matches_spec (o : Oracles) (statusCode : Int) (body : Body) :
    (createAPIError o statusCode body).statusCode = statusCode ∧
    (createAPIError o statusCode body).rawResponse = some body ∧
    (createAPIError o statusCode body).err = specStatusKind statusCode ∧
    (createAPIError o statusCode body).message = specMessage o body := by
  refine ⟨rfl, rfl, rfl, ?_⟩
  show (match o.errorField body with
        | some s => if s ≠ "" then s else ""
        | none => "") = specMessage o body
  unfold specMessage
  cases o.errorField body with
  | none => rfl
  | some s =>
    by_cases h : s = "" <;> simp [h]

/-- Claim C5: a context cancellation observed while waiting for a rate
permit makes Do return ctx.Err with zero dispatch attempts, and a
cancellation observed during the backoff sleep before any retry attempt
makes the loop return ctx.Err at once with no further dispatch (the attempt
counter is unchanged). -/
theorem do_cancellationPaths (o : Oracles) (c : Client) (env : DoEnv)
    (hasDest : Bool) (i fuel attempts : Nat)
    (hrl : c.rateLimiter = true) (hrc : env.rateCancelled = true)
    (hi : 1 ≤ i) (hbc : env.backoffCancelled i = true) :
    Client.Do o c env hasDest = ((none, some DoErr.ctxCancelled), 0) ∧
    doLoop o c env hasDest i (fuel + 1) attempts
      = ((none, some DoErr.ctxCancelled), attempts) := by
  constructor
  · unfold Client.Do
    rw [if_pos ⟨hrl, hrc⟩]
  · rw [doLoop, if_pos ⟨hi, hbc⟩]

/-- Claim C5 witness: a client with a rate limiter and an environment whose
context wins both the rate-gate select and the backoff select. -/
theorem do_cancellationPaths_witness :
    Client.Do oFix { cFix with rateLimiter := true } envCancelFix true
      = ((none, some DoErr.ctxCancelled), 0) ∧
    doLoop oFix { cFix with rateLimiter := true } envCancelFix true 1 1 5
      = ((none, some DoErr.ctxCancelled), 5) :=
  do_cancellationPaths oFix { cFix with rateLimiter := true } envCancelFix true
    1 0 5 rfl rfl (by decide) rfl

/-- Claim C6 (code bug): the retry loop clones the request template for every
attempt, but net/http Request.Clone copies the Body reader by reference, so
on a request carrying a body the second dispatch sends a clone whose body
stream was already consumed by the first attempt: freshness per attempt is
[true, false], not all true as claimed. -/
theorem retryClone_bodyStreamShared :
    dispatchFreshness { method := "POST", bodyStream := some 0 } 2
      = [true, false] := by decide

/-- Claim C10: applying the base-URL option to an unparsable string silently
leaves the base URL unchanged (the default resulting from parsing
https: api.dexpaprika.com when no prior override) and reports nothing,
while SetBaseURL on the same string returns the parse error and leaves the
stored base URL untouched. -/
theorem baseURL_optionSilent_setterErrs (o : Oracles) (bad : String) (c : Client)
    (hbad : o.parseURL bad = none) :
    WithBaseURL o bad c = c ∧
    NewClient o [WithBaseURL o bad] = NewClient o [] ∧
    (NewClient o [WithBaseURL o bad]).baseURL = o.parseURL DefaultBaseURL ∧
    Client.SetBaseURL o c bad = (c, some (ReqError.urlParseError bad)) := by
  have hw : ∀ c1 : Client, WithBaseURL o bad c1 = c1 := by
    intro c1
    unfold WithBaseURL
    rw [hbad]
  refine ⟨hw c, ?_, ?_, ?_⟩
  · unfold NewClient
    simp [hw]
  · unfold NewClient
    simp [hw]
  · unfold Client.SetBaseURL
    rw [hbad]

/-- Claim C10 witness at the concrete oracle and client. -/
theorem baseURL_optionSilent_setterErrs_witness :
    WithBaseURL oFix "://bad" cFix = cFix ∧
    NewClient oFix [WithBaseURL oFix "://bad"] = NewClient oFix [] ∧
    (NewClient oFix [WithBaseURL oFix "://bad"]).baseURL
      = oFix.parseURL DefaultBaseURL ∧
    Client.SetBaseURL oFix cFix "://bad"
      = (cFix, some (ReqError.urlParseError "://bad")) :=
  baseURL_optionSilent_setterErrs oFix "://bad" cFix (by decide)

/-- Claim C8 counterexample: NewRequest on a path that fails URL parsing
returns the bare url.Parse error; the value is not an APIError, and in
particular not a structured error of some InvalidRequest kind (no such kind
exists in the SDK). -/
theorem newRequest_notTypedError_cex :
    Client.NewRequestErr oFix cFix ⟨"b"⟩ "GET" "://bad" none
        = some (GoErr.plain (ReqError.urlParseError "://bad")) ∧
    GoErr.isAPIError (GoErr.plain (ReqError.urlParseError "://bad")) = false := by
  decide

/-- Claim C8 (amended): when the path cannot be parsed as a URL, or the
supplied body has no valid JSON representation, NewRequest fails before any
network I/O with the underlying parse or serialization error returned
directly as a plain error value, not wrapped in a structured APIError. -/
theorem newRequest_failure_plain (o : Oracles) (c : Client) (base : URLv)
    (method path1 path2 : String) (b0 : Option JsonVal) (v : JsonVal) (u : URLv)
    (h1 : o.parseURL path1 = none)
    (h2 : o.parseURL path2 = some u) (h3 : o.encode v = none) :
    Client.NewRequestErr o c base method path1 b0
        = some (GoErr.plain (ReqError.urlParseError path1)) ∧
    Client.NewRequestErr o c base method path2 (some v)
        = some (GoErr.plain ReqError.jsonEncodeError) ∧
    GoErr.isAPIError (GoErr.plain (ReqError.urlParseError path1)) = false ∧
    GoErr.isAPIError (GoErr.plain ReqError.jsonEncodeError) = false := by
  refine ⟨?_, ?_, rfl, rfl⟩
  · unfold Client.NewRequestErr Client.NewRequest
    rw [h1]
  · unfold Client.NewRequestErr Client.NewRequest
    rw [h2]
    simp [h3]

/-- Claim C8 witness at the concrete oracle: parsing fails on the bad path,
and the value 0 has no JSON encoding. -/
theorem newRequest_failure_plain_witness :
    Client.NewRequestErr oFix cFix ⟨"b"⟩ "GET" "://bad" (some 1)
        = some (GoErr.plain (ReqError.urlParseError "://bad")) ∧
    Client.NewRequestErr oFix cFix ⟨"b"⟩ "GET" "/pools" (some 0)
        = some (GoErr.plain ReqError.jsonEncodeError) ∧
    GoErr.isAPIError (GoErr.plain (ReqError.urlParseError "://bad")) = false ∧
    GoErr.isAPIError (GoErr.plain ReqError.jsonEncodeError) = false :=
  newRequest_failure_plain oFix cFix ⟨"b"⟩ "GET" "://bad" "/pools" (some 1) 0
    ⟨"/pools"⟩ (by decide) (by decide) (by decide)

/-- Helper for C1: when every dispatch fails at the transport level and the
context never fires, any suffix of the loop starting at iteration i with the
remaining fuel runs the remaining fuel iterations and returns the
network-error APIError built on the last one. -/
theorem doLoop_allTransportFail (o : Oracles) (c : Client) (env : DoEnv)
    (hasDest : Bool) (N : Nat) (hmr : c.maxRetries = (N : Int)) (cause : Nat → Nat)
    (hfail : ∀ i, env.transport i = .transportError (cause i))
    (hbc : ∀ i, env.backoffCancelled i = false)
    (hpc : ∀ i, env.postCancelled i = false) :
    ∀ fuel i attempts, i + fuel = N + 1 → 0 < fuel →
      doLoop o c env hasDest i fuel attempts
        = ((none, some (DoErr.api
            { statusCode := 0, message := "", rawResponse := none,
              err := .networkError (N : Int) (cause N) })), attempts + fuel) := by
  intro fuel
  induction fuel with
  | zero => intro i attempts _ hf; omega
  | succ f ih =>
    intro i attempts hinv _
    rw [doLoop, if_neg (by simp [hbc]), if_neg (by simp [hpc]), hfail]
    dsimp only
    by_cases hi : (i : Int) = c.maxRetries
    · have hiN : i = N := by omega
      have hf0 : f = 0 := by omega
      rw [if_pos hi, hmr, hiN, hf0]
    · rw [if_neg hi]
      have hfpos : 0 < f := by omega
      rw [ih (i + 1) (attempts + 1) (by omega) hfpos]
      exact congrArg _ (by omega)

/-- Claim C1: with maxRetries = N (N nonnegative) and a transport that fails
on every dispatch, with the context never firing, Do performs exactly N + 1
dispatch attempts and returns a nil response together with an APIError of
status code 0 whose wrapped error is the network-error wrap of the cause of
the last attempt. -/
theorem do_persistentTransportFailure (o : Oracles) (c : Client) (env : DoEnv)
    (hasDest : Bool) (N : Nat) (hmr : c.maxRetries = (N : Int))
    (hfail : ∀ i, ∃ cause, env.transport i = .transportError cause)
    (hbc : ∀ i, env.backoffCancelled i = false)
    (hpc : ∀ i, env.postCancelled i = false)
    (hrate : c.rateLimiter = false ∨ env.rateCancelled = false) :
    (Client.Do o c env hasDest).2 = N + 1 ∧
    ∃ cause, env.transport N = .transportError cause ∧
      (Client.Do o c env hasDest).1
        = (none, some (DoErr.api
            { statusCode := 0, message := "", rawResponse := none,
              err := .networkError (N : Int) cause })) := by
  classical
  choose cause hc using hfail
  have hfuel : (c.maxRetries + 1).toNat = N + 1 := by omega
  have hmain := doLoop_allTransportFail o c env hasDest N hmr cause hc hbc hpc
      (N + 1) 0 0 (by omega) (by omega)
  have hdo : Client.Do o c env hasDest
      = ((none, some (DoErr.api
          { statusCode := 0, message := "", rawResponse := none,
            err := .networkError (N : Int) (cause N) })), 0 + (N + 1)) := by
    unfold Client.Do
    rw [if_neg (by rcases hrate with h | h <;> simp [h]), hfuel, hmain]
  exact ⟨by rw [hdo]; omega, cause N, hc N, by rw [hdo]⟩

/-- Claim C1 witness: maxRetries = 2 and a transport that always fails with
cause 7 give 3 attempts and the network-error APIError of status 0. -/
theorem do_persistentTransportFailure_witness :
    (Client.Do oFix cFix envFailFix true).2 = 3 ∧
    ∃ cause, envFailFix.transport 2 = .transportError cause ∧
      (Client.Do oFix cFix envFailFix true).1
        = (none, some (DoErr.api
            { statusCode := 0, message := "", rawResponse := none,
              err := .networkError (2 : Int) cause })) :=
  do_persistentTransportFailure oFix cFix envFailFix true 2 rfl
    (fun _ => ⟨7, rfl⟩) (fun _ => rfl) (fun _ => rfl) (Or.inl rfl)

/-- Helper for C2: when every dispatch returns a non-2xx status whose
classified error is retryable and the context never fires, any suffix of the
loop runs all remaining iterations and returns the classified error of the
last one together with its response handle. -/
theorem doLoop_allRetryableResp (o : Oracles) (c : Client) (env : DoEnv)
    (hasDest : Bool) (N : Nat) (hmr : c.maxRetries = (N : Int))
    (s : Nat → Int) (b : Nat → Body)
    (hresp : ∀ i, env.transport i = .response (s i) (b i))
    (hout : ∀ i, s i < 200 ∨ 300 ≤ s i)
    (hretry : ∀ i, (createAPIError o (s i) (b i)).isRetryable = true)
    (hbc : ∀ i, env.backoffCancelled i = false)
    (hpc : ∀ i, env.postCancelled i = false) :
    ∀ fuel i attempts, i + fuel = N + 1 → 0 < fuel →
      doLoop o c env hasDest i fuel attempts
        = ((some ⟨s N, b N⟩,
            some (DoErr.api (createAPIError o (s N) (b N)))), attempts + fuel) := by
  intro fuel
  induction fuel with
  | zero => intro i attempts _ hf; omega
  | succ f ih =>
    intro i attempts hinv _
    rw [doLoop, if_neg (by simp [hbc]), if_neg (by simp [hpc]), hresp]
    dsimp only
    rw [if_pos (hout i)]
    by_cases hi : (i : Int) < c.maxRetries
    · rw [if_pos ⟨hretry i, hi⟩]
      have hfpos : 0 < f := by omega
      rw [ih (i + 1) (attempts + 1) (by omega) hfpos]
      exact congrArg _ (by omega)
    · have hiN : i = N := by omega
      have hf0 : f = 0 := by omega
      rw [if_neg (by intro hcon; exact hi hcon.2), hiN, hf0]

/-- Claim C2: with maxRetries = N positive and the context never firing, a
first response whose classified kind is not retryable is returned to the
caller after exactly one dispatch, while a transport whose every response
classifies as retryable is retried until the counter reaches maxRetries,
the error of the last attempt being returned after exactly N + 1
dispatches. -/
theorem do_retryClassification (o : Oracles) (c : Client) (envA envB : DoEnv)
    (hasDest : Bool) (N : Nat) (sA : Int) (bA : Body)
    (s : Nat → Int) (b : Nat → Body)
    (hN : 0 < N) (hmr : c.maxRetries = (N : Int))
    (hbcA : ∀ i, envA.backoffCancelled i = false)
    (hpcA : ∀ i, envA.postCancelled i = false)
    (hrateA : c.rateLimiter = false ∨ envA.rateCancelled = false)
    (htA : envA.transport 0 = .response sA bA)
    (houtA : sA < 200 ∨ 300 ≤ sA)
    (hnrA : (createAPIError o sA bA).isRetryable = false)
    (hbcB : ∀ i, envB.backoffCancelled i = false)
    (hpcB : ∀ i, envB.postCancelled i = false)
    (hrateB : c.rateLimiter = false ∨ envB.rateCancelled = false)
    (htB : ∀ i, envB.transport i = .response (s i) (b i))
    (houtB : ∀ i, s i < 200 ∨ 300 ≤ s i)
    (hrB : ∀ i, (createAPIError o (s i) (b i)).isRetryable = true) :
    Client.Do o c envA hasDest
      = ((some ⟨sA, bA⟩, some (DoErr.api (createAPIError o sA bA))), 1) ∧
    Client.Do o c envB hasDest
      = ((some ⟨s N, b N⟩,
          some (DoErr.api (createAPIError o (s N) (b N)))), N + 1) := by
  have hfuel : (c.maxRetries + 1).toNat = N + 1 := by omega
  constructor
  · unfold Client.Do
    rw [if_neg (by rcases hrateA with h | h <;> simp [h]), hfuel, doLoop,
        if_neg (by simp [hbcA]), if_neg (by simp [hpcA]), htA]
    dsimp only
    rw [if_pos houtA,
        if_neg (by intro hcon; rw [hnrA] at hcon; exact Bool.false_ne_true hcon.1)]
  · unfold Client.Do
    rw [if_neg (by rcases hrateB with h | h <;> simp [h]), hfuel,
        doLoop_allRetryableResp o c envB hasDest N hmr s b htB houtB hrB hbcB hpcB
          (N + 1) 0 0 (by omega) (by omega)]
    exact congrArg _ (by omega)

/-- Claim C2 witness: a transport answering 400 with body [1] is returned
after one dispatch; a transport always answering 503 is retried and its last
error returned after maxRetries + 1 = 3 dispatches. -/
theorem do_retryClassification_witness :
    Client.Do oFix cFix env400Fix true
      = ((some ⟨400, [1]⟩, some (DoErr.api (createAPIError oFix 400 [1]))), 1) ∧
    Client.Do oFix cFix env503Fix true
      = ((some ⟨503, []⟩, some (DoErr.api (createAPIError oFix 503 []))), 3) :=
  do_retryClassification oFix cFix env400Fix env503Fix true 2 400 [1]
    (fun _ => 503) (fun _ => []) (by decide) rfl
    (fun _ => rfl) (fun _ => rfl) (Or.inl rfl) rfl (by decide) (by decide)
    (fun _ => rfl) (fun _ => rfl) (Or.inl rfl) (fun _ => rfl)
    (fun _ => by show (503 : Int) < 200 ∨ (300 : Int) ≤ 503; decide)
    (fun _ => by show (createAPIError oFix 503 []).isRetryable = true; decide)

/-- Claim C7: with a nonnegative maxRetries, a first response whose status is
in [200,300) and whose body fails to decode into the supplied destination
makes Do return the decode-error APIError for that status at once, after
exactly one dispatch and no retry. -/
theorem do_decodeFailure (o : Oracles) (c : Client) (env : DoEnv)
    (sc : Int) (b : Body) (N : Nat) (hmr : c.maxRetries = (N : Int))
    (ht : env.transport 0 = .response sc b) (h2 : 200 ≤ sc) (h3 : sc < 300)
    (hd : env.decodeFails b = true)
    (hbc : env.backoffCancelled 0 = false) (hpc : env.postCancelled 0 = false)
    (hrate : c.rateLimiter = false ∨ env.rateCancelled = false) :
    Client.Do o c env true
      = ((some ⟨sc, b⟩, some (DoErr.api
          { statusCode := sc, message := "", rawResponse := some b,
            err := .decodeError })), 1) := by
  have hfuel : (c.maxRetries + 1).toNat = N + 1 := by omega
  unfold Client.Do
  rw [if_neg (by rcases hrate with h | h <;> simp [h]), hfuel, doLoop,
      if_neg (by simp [hbc]), if_neg (by simp [hpc]), ht]
  dsimp only
  rw [if_neg (by omega), if_pos ⟨rfl, hd⟩]

/-- Claim C7 witness: a 200 with body [2] that fails to decode is returned
as a decode-error APIError after exactly one dispatch under maxRetries 2. -/
theorem do_decodeFailure_witness :
    Client.Do oFix cFix envDecodeFix true
      = ((some ⟨200, [2]⟩, some (DoErr.api
          { statusCode := 200, message := "", rawResponse := some [2],
            err := .decodeError })), 1) :=
  do_decodeFailure oFix cFix envDecodeFix 200 [2] 2 rfl rfl (by decide)
    (by decide) (by decide) rfl rfl (Or.inl rfl)

/-- Helper for C9: when maxRetries is reachable from the current iteration
(the loop condition still holds), the loop returns either a non-nil error or
a non-nil response with a nil error. -/
theorem doLoop_total (o : Oracles) (c : Client) (env : DoEnv) (hasDest : Bool) :
    ∀ (fuel i attempts : Nat), (i : Int) + (fuel : Int) = c.maxRetries + 1 → 0 < fuel →
      ((doLoop o c env hasDest i fuel attempts).1.2.isSome = true ∨
       ((doLoop o c env hasDest i fuel attempts).1.1.isSome = true ∧
        (doLoop o c env hasDest i fuel attempts).1.2 = none)) := by
  intro fuel
  induction fuel with
  | zero => intro i attempts _ hf; omega
  | succ f ih =>
    intro i attempts hinv _
    rw [doLoop]
    by_cases hb : 1 ≤ i ∧ env.backoffCancelled i = true
    · rw [if_pos hb]; left; rfl
    rw [if_neg hb]
    by_cases hp : env.postCancelled i = true
    · rw [if_pos hp]; left; rfl
    rw [if_neg hp]
    cases htr : env.transport i with
    | transportError cause =>
      dsimp only
      by_cases hi : (i : Int) = c.maxRetries
      · rw [if_pos hi]; left; rfl
      · rw [if_neg hi]
        exact ih (i + 1) (attempts + 1) (by omega) (by omega)
    | readError status cause sofar =>
      dsimp only
      by_cases hi : (i : Int) = c.maxRetries
      · rw [if_pos hi]; left; rfl
      · rw [if_neg hi]
        exact ih (i + 1) (attempts + 1) (by omega) (by omega)
    | response status body =>
      dsimp only
      by_cases hs : status < 200 ∨ 300 ≤ status
      · rw [if_pos hs]
        by_cases hr : (createAPIError o status body).isRetryable = true
            ∧ (i : Int) < c.maxRetries
        · rw [if_pos hr]
          exact ih (i + 1) (attempts + 1) (by omega) (by
            rcases hr with ⟨_, hlt⟩; omega)
        · rw [if_neg hr]; left; rfl
      · rw [if_neg hs]
        by_cases hdz : hasDest = true ∧ env.decodeFails body = true
        · rw [if_pos hdz]; left; rfl
        · rw [if_neg hdz]; right; exact ⟨rfl, rfl⟩

/-- Claim C9 (amended): for every configuration with nonnegative maxRetries,
Do produces exactly one of a successful response or an error: either the
error component is non-nil, or the response is non-nil with a nil error.
The as-stated claim over all configurations fails when maxRetries is
negative, where the loop body never executes and both components are nil. -/
theorem do_totality (o : Oracles) (c : Client) (env : DoEnv) (hasDest : Bool)
    (h : 0 ≤ c.maxRetries) :
    (Client.Do o c env hasDest).1.2.isSome = true ∨
    ((Client.Do o c env hasDest).1.1.isSome = true ∧
     (Client.Do o c env hasDest).1.2 = none) := by
  unfold Client.Do
  by_cases hr : c.rateLimiter = true ∧ env.rateCancelled = true
  · rw [if_pos hr]; left; rfl
  · rw [if_neg hr]
    exact doLoop_total o c env hasDest (c.maxRetries + 1).toNat 0 0
      (by omega) (by omega)

/-- Claim C9 counterexample: a client built with maxRetries = -1 (the option
accepts any int) makes the loop condition fail before the first iteration,
and Do returns a nil response together with a nil error. -/
theorem do_negativeMaxRetries_cex :
    (Client.Do oFix { cFix with maxRetries := -1 } envFailFix true).1
      = (none, none) := by decide

/-- Claim C9 witness at the concrete fixtures. -/
theorem do_totality_witness :
    (Client.Do oFix cFix envFailFix true).1.2.isSome = true ∨
    ((Client.Do oFix cFix envFailFix true).1.1.isSome = true ∧
     (Client.Do oFix cFix envFailFix true).1.2 = none) :=
  do_totality oFix cFix envFailFix true (by decide)

end DexPaprika
